import Mathlib

set_option maxRecDepth 40000
set_option maxHeartbeats 1000000

/-!
# Verification of the godan-dist orchestration server

Shallow embedding of the orchestration core found in `server/handlers.go`
and `server/server.go` of the godan-dist repository: the filter-to-query
compiler (`queryTemplate`, the argument building in `queryHandler`, and
`extractFilters`), the fleet command handler (`setStatusHandler`), the task
submission handler (`tasksHandler`), and the row decoding loop of
`queryHandler`.  External collaborators (the monmq supervisor, the rpcmq
client, the SQL store) are modelled as oracles passed to the handler
functions; HTTP plumbing is modelled by the status code and body the
handler writes.
-/

/-- Structure `Filters` (handlers.go): the filter criteria extracted from
a result query request.  In Go, an absent IP or regexp is the empty
string and an absent port/service list is nil, embedded here as `""` and
`[]`. -/
structure Filters where
  Ip : String
  Ports : List String
  Services : List String
  Regexp : String
deriving DecidableEq

/-- Structure `MonmqCmd` (handlers.go): the decoded body of a fleet
command request. -/
structure MonmqCmd where
  Target : String
  Command : String
deriving DecidableEq

/-- Type `monmq.Command`, the command enumeration owned by the external
monmq collaborator (not part of this repository).  The Go handler
declares `var command monmq.Command`, so a command string matching no
switch case leaves `command` at the zero value of the type; since the
source of the library is external, the zero value is modelled as a
distinct `zeroValue` marker rather than identified with a particular
enumerant. -/
inductive MCommand where
  | zeroValue
  | softShutdown
  | hardShutdown
  | pause
  | resume
deriving DecidableEq

/-- The command mapping performed by the `switch` in `setStatusHandler`
(handlers.go lines 81-91): four recognized literals; any other string
falls through every case and leaves the declared zero value. -/
def mapCommand (s : String) : MCommand :=
  if s = "softshutdown" then MCommand.softShutdown
  else if s = "hardshutdown" then MCommand.hardShutdown
  else if s = "pause" then MCommand.pause
  else if s = "resume" then MCommand.resume
  else MCommand.zeroValue

/-- Failure modes of the supervisor `Invoke` call, as the spec
distinguishes them: the command is invalid for the current state of the
target, the target is unknown, or the message transport failed.  The Go
code only sees a non-nil `error`. -/
inductive InvokeError where
  | invalidForState
  | unknownTarget
  | transport
deriving DecidableEq

/-- Observable outcome of `setStatusHandler`: the HTTP status written
(200 when the handler writes no explicit header) and the `Invoke` call
made on the supervisor, if any. -/
structure SetStatusResult where
  status : Nat
  invoked : Option (MCommand × String)
deriving DecidableEq

/-- Function `setStatusHandler` (handlers.go lines 67-97) after the body
has been read: `body` is the result of `json.Unmarshal` into `MonmqCmd`
(`none` on malformed JSON), `invoke` is the `Invoke` method of the
supervisor collaborator.  The switch maps the command text, `Invoke` is
called unconditionally with whatever the switch left in `command`, and
any error from it is answered with status 400 ("Invalid command for
target."). -/
def setStatusHandler (body : Option MonmqCmd)
    (invoke : MCommand → String → Option InvokeError) : SetStatusResult :=
  match body with
  | none => { status := 400, invoked := none }
  | some cmd =>
    let command := mapCommand cmd.Command
    match invoke command cmd.Target with
    | some _ => { status := 400, invoked := some (command, cmd.Target) }
    | none => { status := 200, invoked := some (command, cmd.Target) }

/-- Type `Task` (defined in a repository file outside `server/`; named
`GoTask` here because the Lean core already declares `Task`).  Modelled
from the spec: "an opaque, caller-supplied description (its internal
shape is owned by the worker contract, not by this core)". -/
structure GoTask where
  payload : String
deriving DecidableEq

/-- Observable outcome of `tasksHandler`: status and body written to the
caller, the task handed to the detached dispatch (if any), and the
outcome of that detached dispatch (never read by the handler). -/
structure TasksResult where
  status : Nat
  body : String
  dispatched : Option GoTask
  dispatchOutcome : Option Bool
deriving DecidableEq

/-- Function `tasksHandler` (handlers.go lines 36-54) after the body has
been read: `decoded` is the result of `json.Unmarshal` into `Task`
(`none` on malformed JSON); `dispatchOk` is the eventual outcome of the
detached `go tm.runTasks(task)` RPC dispatch.  On decode failure the
handler answers 400 and dispatches nothing; on success it launches the
dispatch and immediately writes the success acknowledgement, never
reading the dispatch outcome. -/
def tasksHandler (decoded : Option GoTask) (dispatchOk : GoTask → Bool) : TasksResult :=
  match decoded with
  | none =>
    { status := 400
      body := "\x7b\"code\":\"400\",\"title\":\"Bad Request\",\"detail\":\"Invalid json format.\"\x7d]\x7d\n"
      dispatched := none
      dispatchOutcome := none }
  | some task =>
    { status := 200
      body := "\x7b\"status\": \"success\"\x7d\n"
      dispatched := some task
      dispatchOutcome := some (dispatchOk task) }

/-- The argument list building of `queryHandler` (handlers.go lines
120-132), mirroring the Go appends: the IP when non-empty, then each port
in order, then each service in order, then the regexp when non-empty. -/
def buildArgs (f : Filters) : List String :=
  let data : List String := []
  let data := if f.Ip ≠ "" then data ++ [f.Ip] else data
  let data := f.Ports.foldl (fun d v => d ++ [v]) data
  let data := f.Services.foldl (fun d v => d ++ [v]) data
  if f.Regexp ≠ "" then data ++ [f.Regexp] else data

/-- Tail of the rendering of the placeholder loop
`{{range $i, $v := ...}}{{if $i}},{{end}}?{{end}}` in `queryTemplate`:
a comma and a placeholder for every element after the first. -/
def phTail (xs : List String) : String :=
  match xs with
  | [] => ""
  | _ :: rest => ",?" ++ phTail rest

/-- One placeholder per list element, comma separated (see `phTail`). -/
def phJoin (xs : List String) : String :=
  match xs with
  | [] => ""
  | _ :: rest => "?" ++ phTail rest

/-- The rendering of `queryTemplate` (handlers.go lines 166-171) on a
`Filters` value, following the truthiness rules of Go templates (empty
string and empty/nil slice are false) and keeping the literal newlines of
the template. -/
def queryText (f : Filters) : String :=
  "SELECT DISTINCT INET_NTOA(ip), port, service, content FROM banners\n"
  ++ (if f.Ip ≠ "" ∨ f.Ports ≠ [] ∨ f.Services ≠ [] ∨ f.Regexp ≠ "" then " WHERE" else "") ++ "\n"
  ++ (if f.Ip ≠ "" then " ip = INET_ATON((?))" else "") ++ "\n"
  ++ (if f.Ip ≠ "" ∧ f.Ports ≠ [] then " AND" else "")
  ++ (if f.Ports ≠ [] then " port IN (" ++ phJoin f.Ports ++ ")" else "") ++ "\n"
  ++ (if f.Services ≠ [] ∧ (f.Ip ≠ "" ∨ f.Ports ≠ []) then " AND" else "")
  ++ (if f.Services ≠ [] then " service IN (" ++ phJoin f.Services ++ ")" else "") ++ "\n"
  ++ (if f.Regexp ≠ "" ∧ (f.Ip ≠ "" ∨ f.Ports ≠ [] ∨ f.Services ≠ []) then " AND" else "")
  ++ (if f.Regexp ≠ "" then " content regexp (?)" else "") ++ ";"

/-- Number of `?` placeholders in a query text. -/
def countQ (s : String) : Nat :=
  s.data.count '?'

/-- Model of `strings.TrimPrefix(s, pre)` from the Go standard library:
`s` without the leading `pre` when present, `s` unchanged otherwise
(computed on the character list; the prefixes used by `extractFilters`
are ASCII, so byte and character indexing agree). -/
def trimPrefix (pre s : String) : String :=
  if pre.data.isPrefixOf s.data then String.mk (s.data.drop pre.data.length) else s

/-- Model of `strings.Split` from the Go standard library for a
one-character separator, on the character list: splitting around each
separator occurrence; splitting the empty string yields one empty field,
and adjacent separators yield empty fields. -/
def splitCharAux (sep : Char) (cs : List Char) : List (List Char) :=
  match cs with
  | [] => [[]]
  | c :: rest =>
    if c = sep then [] :: splitCharAux sep rest
    else
      match splitCharAux sep rest with
      | [] => [[c]]
      | g :: gs => (c :: g) :: gs

/-- Model of `strings.Split(s, sep)` for a one-character separator (the
only form `extractFilters` uses, with `sep = ","`). -/
def goSplit (s : String) (sep : Char) : List String :=
  (splitCharAux sep s.data).map String.mk

/-- Model of `values[key]` followed by `[0]` on the Go `url.Values` map:
the query string is modelled as the ordered list of its key/value pairs;
`values[key]` is the sublist of values for `key` in order of appearance,
non-nil exactly when `key` occurs, and `[0]` takes the first
occurrence. -/
def firstParam (q : List (String × String)) (key : String) : Option String :=
  match q.filter (fun p => p.1 = key) with
  | [] => none
  | p :: _ => some p.2

/-- Function `extractFilters` (handlers.go lines 174-199): the IP comes
from the URL path with the `/ips` prefix (and then a `/`) trimmed;
`port` and `service` take the first occurrence of the parameter split on
commas (Go `strings.Split`, embedded as `goSplit`); `regexp` takes the
first occurrence verbatim; missing parameters leave the zero values
(nil slices, empty string). -/
def extractFilters (path : String) (q : List (String × String)) : Filters :=
  let ip0 := trimPrefix "/ips" path
  let ip := if ip0 ≠ "" then trimPrefix "/" ip0 else ip0
  let p := match firstParam q "port" with
    | some v => goSplit v ','
    | none => []
  let s := match firstParam q "service" with
    | some v => goSplit v ','
    | none => []
  let r := match firstParam q "regexp" with
    | some v => v
    | none => ""
  { Ip := ip, Ports := p, Services := s, Regexp := r }

/-- The base64 alphabet of RFC 4648 used by `base64.StdEncoding` of the
Go standard library. -/
def b64Alphabet : String :=
  "ABCDEFGHIJKLMNOPQRSTUVWXYZabcdefghijklmnopqrstuvwxyz0123456789+/"

/-- Character of the standard base64 alphabet at a 6-bit index. -/
def b64Char (n : Nat) : Char :=
  b64Alphabet.data.getD n '='

/-- Model of `base64.StdEncoding.EncodeToString` from the Go standard
library on a byte sequence: 3-byte groups become 4 alphabet characters;
a trailing 1- or 2-byte group is padded with `=`. -/
def base64Encode (bs : List Nat) : String :=
  match bs with
  | [] => ""
  | [a] =>
    String.mk [b64Char (a / 4), b64Char (a % 4 * 16)] ++ "=="
  | [a, b] =>
    String.mk [b64Char (a / 4), b64Char (a % 4 * 16 + b / 16), b64Char (b % 16 * 4)] ++ "="
  | a :: b :: c :: rest =>
    String.mk [b64Char (a / 4), b64Char (a % 4 * 16 + b / 16),
      b64Char (b % 16 * 4 + c / 64), b64Char (c % 64)] ++ base64Encode rest

/-- A row as scanned from the store by `rows.Scan` in `queryHandler`
(handlers.go line 146): IP, port, service as text and the raw content
bytes before transport encoding. -/
structure RawBanner where
  Ip : String
  Port : String
  Service : String
  content : List Nat
deriving DecidableEq

/-- Structure `Banner` (handlers.go lines 29-34) as marshaled in the
response: `Content` holds the transport-encoded text. -/
structure Banner where
  Ip : String
  Port : String
  Service : String
  Content : String
deriving DecidableEq

/-- The per-row transformation of the decoding loop (handlers.go line
152): the content bytes are base64-encoded into the `Content` field. -/
def encodeBanner (r : RawBanner) : Banner :=
  { Ip := r.Ip, Port := r.Port, Service := r.Service, Content := base64Encode r.content }

/-- The row decoding loop of `queryHandler` (handlers.go lines 143-154):
each row either scans into a `RawBanner` or fails (`none`); on the first
failure the handler returns with status 500 and no rows are produced; on
success the content is base64-encoded and the record appended. -/
def scanRows (rows : List (Option RawBanner)) : Except Unit (List Banner) :=
  match rows with
  | [] => Except.ok []
  | none :: _ => Except.error ()
  | some r :: rest =>
    match scanRows rest with
    | Except.error e => Except.error e
    | Except.ok bs => Except.ok (encodeBanner r :: bs)

/-- The observable outcome of the result phase of `queryHandler`: on any
scan failure status 500 with no body collection, otherwise status 200
with the decoded collection. -/
def queryRowsOutcome (rows : List (Option RawBanner)) : Nat × Option (List Banner) :=
  match scanRows rows with
  | Except.error _ => (500, none)
  | Except.ok bs => (200, some bs)

/-- The all-absent criteria value: empty-string IP and regexp, nil
lists. -/
def emptyFilters : Filters := { Ip := "", Ports := [], Services := [], Regexp := "" }

/-- A supervisor oracle whose `Invoke` always fails at the transport
level. -/
def transportFailing : MCommand → String → Option InvokeError :=
  fun _ _ => some InvokeError.transport

/-! ## Helper lemmas -/

theorem foldl_append_eq (xs acc : List String) :
    xs.foldl (fun d v => d ++ [v]) acc = acc ++ xs := by
  induction xs generalizing acc with
  | nil => simp
  | cons x xs ih => simp [ih]

theorem buildArgs_eq (f : Filters) :
    buildArgs f = (if f.Ip = "" then [] else [f.Ip]) ++ f.Ports ++ f.Services
      ++ (if f.Regexp = "" then [] else [f.Regexp]) := by
  simp only [buildArgs, foldl_append_eq]
  split_ifs <;> simp_all

theorem countQ_append (a b : String) : countQ (a ++ b) = countQ a + countQ b := by
  simp [countQ, String.data_append, List.count_append]

theorem countQ_phTail (xs : List String) : countQ (phTail xs) = xs.length := by
  induction xs with
  | nil => rfl
  | cons x xs ih =>
    have h1 : countQ (",?" : String) = 1 := rfl
    simp [phTail, countQ_append, h1, ih]
    omega

theorem countQ_phJoin (xs : List String) : countQ (phJoin xs) = xs.length := by
  cases xs with
  | nil => rfl
  | cons x xs =>
    have h1 : countQ ("?" : String) = 1 := rfl
    simp [phJoin, countQ_append, h1, countQ_phTail]
    omega

theorem countQ_queryText (f : Filters) :
    countQ (queryText f) =
      (if f.Ip = "" then 0 else 1) + f.Ports.length + f.Services.length
        + (if f.Regexp = "" then 0 else 1) := by
  have c0 : countQ "SELECT DISTINCT INET_NTOA(ip), port, service, content FROM banners\n" = 0 := by
    decide
  have c1 : countQ " WHERE" = 0 := by decide
  have c2 : countQ "\n" = 0 := by decide
  have c3 : countQ " ip = INET_ATON((?))" = 1 := by decide
  have c4 : countQ " AND" = 0 := by decide
  have c5 : countQ " port IN (" = 0 := by decide
  have c6 : countQ ")" = 0 := by decide
  have c7 : countQ " service IN (" = 0 := by decide
  have c8 : countQ " content regexp (?)" = 1 := by decide
  have c9 : countQ ";" = 0 := by decide
  have ce : countQ "" = 0 := by decide
  simp only [queryText, countQ_append, apply_ite countQ, countQ_phJoin,
    c0, c1, c2, c3, c4, c5, c6, c7, c8, c9, ce]
  split_ifs <;> simp_all

theorem setStatus_invoked (cmd : MonmqCmd) (invoke : MCommand → String → Option InvokeError) :
    (setStatusHandler (some cmd) invoke).invoked = some (mapCommand cmd.Command, cmd.Target) := by
  simp only [setStatusHandler]
  cases h : invoke (mapCommand cmd.Command) cmd.Target <;> simp [h]

theorem setStatus_status_of_err (cmd : MonmqCmd) (invoke : MCommand → String → Option InvokeError)
    (e : InvokeError) (h : invoke (mapCommand cmd.Command) cmd.Target = some e) :
    (setStatusHandler (some cmd) invoke).status = 400 := by
  simp only [setStatusHandler]
  rw [h]

theorem scanRows_error_of_mem (rows : List (Option RawBanner)) (h : none ∈ rows) :
    scanRows rows = Except.error () := by
  induction rows with
  | nil => cases h
  | cons x rest ih =>
    cases x with
    | none => rfl
    | some r =>
      have h2 : none ∈ rest := by simpa using h
      simp only [scanRows, ih h2]

theorem firstParam_append_of_mem (q : List (String × String)) (key k v : String)
    (h : key ∈ q.map Prod.fst) :
    firstParam (q ++ [(key, v)]) k = firstParam q k := by
  unfold firstParam
  rw [List.filter_append]
  cases hq : q.filter (fun p => p.1 = k) with
  | cons p ps => simp
  | nil =>
    have hk : key ≠ k := by
      intro he
      subst he
      obtain ⟨p, hp, hfp⟩ := List.mem_map.mp h
      have hmem : p ∈ q.filter (fun x => x.1 = key) :=
        List.mem_filter.mpr ⟨hp, by simp [hfp]⟩
      rw [hq] at hmem
      cases hmem
    simp [hk]

/-! ## Claim theorems -/

/-- C1: the claim requires a fleet command request with unrecognized
command text to fail with InvalidCommand and make no forwarding call.
The code diverges: the switch in `setStatusHandler` has no default case,
so the unrecognized command text "nonsense" maps to the zero value of
`monmq.Command` and is still forwarded to the supervisor `Invoke` call,
for every behaviour of the supervisor; and when the supervisor accepts
that zero-value command the operation even succeeds with status 200. -/
theorem nonsense_command_forwarded (invoke : MCommand → String → Option InvokeError) :
    mapCommand "nonsense" = MCommand.zeroValue ∧
    (setStatusHandler (some { Target := "w1", Command := "nonsense" }) invoke).invoked
      = some (MCommand.zeroValue, "w1") ∧
    (setStatusHandler (some { Target := "w1", Command := "nonsense" })
      (fun _ _ => none)).status = 200 := by
  refine ⟨rfl, ?_, rfl⟩
  have h := setStatus_invoked { Target := "w1", Command := "nonsense" } invoke
  simpa using h

/-- C2: the compiled argument sequence for the criteria
with ip "1.2.3.4", ports ["80","443"], services ["http"], regexp "ssh"
is exactly ["1.2.3.4","80","443","http","ssh"]; in general the argument
sequence is the IP (if present), the ports in caller order, the services
in caller order, then the regexp (if present). -/
theorem compile_argument_order :
    buildArgs { Ip := "1.2.3.4", Ports := ["80", "443"], Services := ["http"], Regexp := "ssh" }
      = ["1.2.3.4", "80", "443", "http", "ssh"] ∧
    ∀ f : Filters, buildArgs f =
      (if f.Ip = "" then [] else [f.Ip]) ++ f.Ports ++ f.Services
        ++ (if f.Regexp = "" then [] else [f.Regexp]) :=
  ⟨rfl, buildArgs_eq⟩

/-- C3: for every criteria value, the number of `?` placeholders in the
compiled query text equals the length of the compiled argument
sequence. -/
theorem placeholder_argument_parity (f : Filters) :
    countQ (queryText f) = (buildArgs f).length := by
  rw [countQ_queryText, buildArgs_eq]
  split_ifs <;> simp <;> omega

/-- C4 (counterexample to the claim as stated): a recognized command
whose `Invoke` call fails at the transport level is answered with status
400, not a 5xx-class ControlError response — the handler does not
distinguish transport failures from invalid-command failures. -/
theorem transport_failure_not_5xx :
    (setStatusHandler (some { Target := "w1", Command := "pause" }) transportFailing).status = 400 ∧
    ¬ (500 ≤ (setStatusHandler (some { Target := "w1", Command := "pause" })
      transportFailing).status) :=
  ⟨rfl, by decide⟩

/-- C4 (amended): every failure of the supervisor `Invoke` call —
invalid-for-state, unknown-target and transport-level alike — surfaces
the same 400 "Invalid command for target." response; the failure kinds
are not distinguished in the response. -/
theorem invoke_failure_yields_400 (cmd : MonmqCmd)
    (invoke : MCommand → String → Option InvokeError) (e : InvokeError)
    (h : invoke (mapCommand cmd.Command) cmd.Target = some e) :
    (setStatusHandler (some cmd) invoke).status = 400 :=
  setStatus_status_of_err cmd invoke e h

/-- Witness for `invoke_failure_yields_400` at a concrete input. -/
theorem invoke_failure_yields_400_witness :
    (setStatusHandler (some { Target := "w1", Command := "pause" }) transportFailing).status = 400 :=
  invoke_failure_yields_400 { Target := "w1", Command := "pause" } transportFailing
    InvokeError.transport rfl

/-- C5: the all-absent criteria compile to a query text with no WHERE
clause and zero placeholders, paired with an empty argument sequence. -/
theorem empty_criteria_unfiltered :
    countQ (queryText emptyFilters) = 0 ∧ buildArgs emptyFilters = [] ∧
    ¬ ("WHERE".data <:+: (queryText emptyFilters).data) :=
  ⟨by decide, rfl, by decide⟩

/-- C6: an empty-string element of the port list (from `port=80,,443`)
is passed through as a literal bound argument: the criteria extracted
from that request carry ports ["80","","443"], the compiled argument
sequence is exactly those three values, and the compiled text has three
membership placeholders for them. -/
theorem empty_string_port_passthrough :
    (extractFilters "/ips" [("port", "80,,443")]).Ports = ["80", "", "443"] ∧
    buildArgs (extractFilters "/ips" [("port", "80,,443")]) = ["80", "", "443"] ∧
    countQ (queryText (extractFilters "/ips" [("port", "80,,443")])) = 3 ∧
    (" port IN (?,?,?)").data <:+: (queryText (extractFilters "/ips" [("port", "80,,443")])).data :=
  ⟨rfl, rfl, by decide, by decide⟩

/-- C7: if any row fails to decode, the whole result query fails with the
500 store-error response and no decoded collection — truncated or not —
is returned. -/
theorem row_decode_failure_no_partial (rows : List (Option RawBanner)) (h : none ∈ rows) :
    queryRowsOutcome rows = (500, none) := by
  unfold queryRowsOutcome
  rw [scanRows_error_of_mem rows h]

/-- Witness for `row_decode_failure_no_partial` at a concrete input. -/
theorem row_decode_failure_no_partial_witness :
    queryRowsOutcome [some { Ip := "1.2.3.4", Port := "80", Service := "http", content := [104] }, none]
      = (500, none) :=
  row_decode_failure_no_partial _ (by decide)

/-- C8: a task submission that does not decode is answered 400 with no
dispatch; one that decodes is dispatched and acknowledged with the fixed
success body, and the response does not depend on the outcome of the
detached dispatch. -/
theorem task_submission_ack_independent :
    (∀ dOk : GoTask → Bool,
      (tasksHandler none dOk).status = 400 ∧ (tasksHandler none dOk).dispatched = none) ∧
    (∀ (t : GoTask) (dOk : GoTask → Bool),
      (tasksHandler (some t) dOk).status = 200 ∧
      (tasksHandler (some t) dOk).body = "\x7b\"status\": \"success\"\x7d\n" ∧
      (tasksHandler (some t) dOk).dispatched = some t) ∧
    (∀ (t : GoTask) (d1 d2 : GoTask → Bool),
      (tasksHandler (some t) d1).status = (tasksHandler (some t) d2).status ∧
      (tasksHandler (some t) d1).body = (tasksHandler (some t) d2).body) :=
  ⟨fun _ => ⟨rfl, rfl⟩, fun _ _ => ⟨rfl, rfl, rfl⟩, fun _ _ _ => ⟨rfl, rfl⟩⟩

/-- C9: whenever the row decoding loop succeeds, the `Content` field of
the record at every position is the base64 encoding of the raw content
bytes scanned from the store at the same position. -/
theorem content_base64_encoded (rows : List (Option RawBanner)) (out : List Banner)
    (h : scanRows rows = Except.ok out) (i : Nat) (hi : i < rows.length)
    (raw : RawBanner) (hr : rows.get ⟨i, hi⟩ = some raw) :
    ∃ hj : i < out.length, (out.get ⟨i, hj⟩).Content = base64Encode raw.content := by
  induction rows generalizing out i with
  | nil => exact absurd hi (by simp)
  | cons x rest ih =>
    cases x with
    | none => simp [scanRows] at h
    | some r =>
      rcases hrest : scanRows rest with e | bs
      · rw [scanRows, hrest] at h
        cases h
      · rw [scanRows, hrest] at h
        cases h
        cases i with
        | zero =>
          cases hr
          exact ⟨by simp, rfl⟩
        | succ n =>
          have hn : n < rest.length := by simpa using hi
          have hrn : rest.get ⟨n, hn⟩ = some raw := by simpa using hr
          obtain ⟨hj, hc⟩ := ih bs hrest n hn hrn
          exact ⟨by simpa using Nat.succ_lt_succ hj, by simpa using hc⟩

/-- Witness for `content_base64_encoded`: a row stored with content
"hello" comes back with Content equal to base64("hello"), the literal
"aGVsbG8=". -/
theorem content_base64_encoded_witness :
    ∃ hj : 0 < ([{ Ip := "1.2.3.4", Port := "80", Service := "http", Content := "aGVsbG8=" }] : List Banner).length,
      (([{ Ip := "1.2.3.4", Port := "80", Service := "http", Content := "aGVsbG8=" }] : List Banner).get
        ⟨0, hj⟩).Content = base64Encode [104, 101, 108, 108, 111] :=
  content_base64_encoded
    [some { Ip := "1.2.3.4", Port := "80", Service := "http", content := [104, 101, 108, 108, 111] }]
    _ rfl 0 (by decide) _ rfl

/-- C10: appending a repeated occurrence of an already-present query
parameter to the query string leaves the extracted filter criteria
unchanged — only the first occurrence of each of `port`, `service` and
`regexp` is used. -/
theorem duplicate_query_param_ignored (path : String) (q : List (String × String))
    (key v : String) (h : key ∈ q.map Prod.fst) :
    extractFilters path (q ++ [(key, v)]) = extractFilters path q := by
  unfold extractFilters
  rw [firstParam_append_of_mem q key "port" v h,
    firstParam_append_of_mem q key "service" v h,
    firstParam_append_of_mem q key "regexp" v h]

/-- Witness for `duplicate_query_param_ignored`: `port=80&port=443`
filters on ["80"] only. -/
theorem duplicate_query_param_ignored_witness :
    ("port" ∈ ([("port", "80")] : List (String × String)).map Prod.fst) ∧
    extractFilters "/ips" ([("port", "80")] ++ [("port", "443")])
      = extractFilters "/ips" [("port", "80")] ∧
    (extractFilters "/ips" [("port", "80"), ("port", "443")]).Ports = ["80"] :=
  ⟨by decide, duplicate_query_param_ignored "/ips" [("port", "80")] "port" "443" (by decide),
    by decide⟩
